import Mathlib

/-
# CppPluginFramework: `PluginConfig`

A shallow embedding of `code/src/PluginConfig.cpp` and the properties of its
validation predicate `PluginConfig::isValid`.

The classes `VersionInfo`, `PluginInstanceConfig` and the function
`Validation::validateFilePath` live in other translation units; `PluginConfig.cpp`
only calls them.  They enter the embedding as the fields of `Collaborators`, over
arbitrary carrier types.  `QString` is embedded as `String`, and `QList<T>` as `List T`.
-/

namespace CppPluginFramework

/-- The Qt string type; `operator==` on it is exact equality of the character sequences. -/
abbrev QString := String

/-- The operations of `VersionInfo`, `PluginInstanceConfig` and `Validation` that
`PluginConfig.cpp` calls, as pure functions over arbitrary carrier types `V`
(for `VersionInfo`) and `I` (for `PluginInstanceConfig`). -/
structure Collaborators (V I : Type) where
  /-- Source `Validation::validateFilePath(path)` -/
  validateFilePath : QString → Bool
  /-- The default-constructed value `VersionInfo()` -/
  versionDefault : V
  /-- Source `VersionInfo::isNull()` -/
  versionIsNull : V → Bool
  /-- Source `VersionInfo::isValid()` -/
  versionIsValid : V → Bool
  /-- Source `VersionInfo::isRangeValid(min, max)` -/
  isRangeValid : V → V → Bool
  /-- The major number of a version -/
  versionMajor : V → Int
  /-- The minor number of a version -/
  versionMinor : V → Int
  /-- The patch number of a version -/
  versionPatch : V → Int
  /-- Source `operator==` on `VersionInfo` -/
  versionEq : V → V → Bool
  /-- Source `PluginInstanceConfig::isValid()` -/
  instanceIsValid : I → Bool
  /-- Source `PluginInstanceConfig::name()` -/
  instanceName : I → QString
  /-- Source `operator==` on `PluginInstanceConfig` -/
  instanceEq : I → I → Bool

/-- The five data members of `PluginConfig`. -/
structure PluginConfig (V I : Type) where
  m_filePath : QString
  m_version : V
  m_minVersion : V
  m_maxVersion : V
  m_instanceConfigs : List I

section Source

variable {V I : Type}

/-- Source `PluginConfig::PluginConfig(filePath, version, instanceConfigs)`: the two range
members are default-constructed. -/
def PluginConfig.mkExact (E : Collaborators V I) (filePath : QString) (version : V)
    (instanceConfigs : List I) : PluginConfig V I :=
  { m_filePath := filePath
    m_version := version
    m_minVersion := E.versionDefault
    m_maxVersion := E.versionDefault
    m_instanceConfigs := instanceConfigs }

/-- Source `PluginConfig::PluginConfig(filePath, minVersion, maxVersion, instanceConfigs)`: the
exact version member is default-constructed. -/
def PluginConfig.mkRange (E : Collaborators V I) (filePath : QString) (minVersion maxVersion : V)
    (instanceConfigs : List I) : PluginConfig V I :=
  { m_filePath := filePath
    m_version := E.versionDefault
    m_minVersion := minVersion
    m_maxVersion := maxVersion
    m_instanceConfigs := instanceConfigs }

/-- Source `PluginConfig::isExactVersion`. -/
def PluginConfig.isExactVersion (E : Collaborators V I) (c : PluginConfig V I) : Bool :=
  (!E.versionIsNull c.m_version) && E.versionIsNull c.m_minVersion
    && E.versionIsNull c.m_maxVersion

/-- Source `PluginConfig::isVersionRange`. -/
def PluginConfig.isVersionRange (E : Collaborators V I) (c : PluginConfig V I) : Bool :=
  E.versionIsNull c.m_version && (!E.versionIsNull c.m_minVersion)
    && (!E.versionIsNull c.m_maxVersion)

/-- The first instance loop of `PluginConfig::isValid` (lines 96-102): `false` when the
loop executes `return false`, `true` when it runs to its end. -/
def instancesValidLoop (E : Collaborators V I) : List I → Bool
  | [] => true
  | instanceConfig :: rest =>
    if !E.instanceIsValid instanceConfig then false
    else instancesValidLoop E rest

/-- The inner loop of the duplicate-name check (lines 109-120) for one `instanceConfig`,
over the remaining items and with the current value of `count`: `false` when it executes
`return false`, `true` when it runs to its end.  The source's `int count` starts at `0` and
the loop returns as soon as it exceeds `1`, so it stays far from overflow and is a `Nat`. -/
def duplicateInnerLoop (E : Collaborators V I) (instanceConfig : I) : List I → Nat → Bool
  | [], _ => true
  | item :: rest, count =>
    if E.instanceName item == E.instanceName instanceConfig then
      if count + 1 > 1 then false
      else duplicateInnerLoop E instanceConfig rest (count + 1)
    else duplicateInnerLoop E instanceConfig rest count

/-- The outer loop of the duplicate-name check (lines 105-121) over the remaining
elements; `all` is the whole of `m_instanceConfigs`, which every inner loop walks with
`count` starting from `0`. -/
def duplicateOuterLoop (E : Collaborators V I) (all : List I) : List I → Bool
  | [] => true
  | instanceConfig :: rest =>
    if !duplicateInnerLoop E instanceConfig all 0 then false
    else duplicateOuterLoop E all rest

/-- Source `PluginConfig::isValid` (lines 65-124), statement by statement. -/
def PluginConfig.isValid (E : Collaborators V I) (c : PluginConfig V I) : Bool :=
  -- Check file path
  if !E.validateFilePath c.m_filePath then false
  -- Check version info
  else if (if c.isExactVersion E then !E.versionIsValid c.m_version
           else !E.isRangeValid c.m_minVersion c.m_maxVersion) then false
  -- At least one plugin instance is required
  else if c.m_instanceConfigs.isEmpty then false
  -- Check individual instances if it is valid
  else if !instancesValidLoop E c.m_instanceConfigs then false
  -- Check if this plugin config contains multiple instances with the same name
  else if !duplicateOuterLoop E c.m_instanceConfigs c.m_instanceConfigs then false
  else true

/-- Source `PluginConfig::filePath`. -/
def PluginConfig.filePath (c : PluginConfig V I) : QString := c.m_filePath

/-- Source `PluginConfig::setFilePath`. -/
def PluginConfig.setFilePath (c : PluginConfig V I) (filePath : QString) : PluginConfig V I :=
  { c with m_filePath := filePath }

/-- Source `PluginConfig::version`. -/
def PluginConfig.version (c : PluginConfig V I) : V := c.m_version

/-- Source `PluginConfig::setVersion`. -/
def PluginConfig.setVersion (c : PluginConfig V I) (version : V) : PluginConfig V I :=
  { c with m_version := version }

/-- Source `PluginConfig::minVersion`. -/
def PluginConfig.minVersion (c : PluginConfig V I) : V := c.m_minVersion

/-- Source `PluginConfig::setMinVersion`. -/
def PluginConfig.setMinVersion (c : PluginConfig V I) (minVersion : V) : PluginConfig V I :=
  { c with m_minVersion := minVersion }

/-- Source `PluginConfig::maxVersion`. -/
def PluginConfig.maxVersion (c : PluginConfig V I) : V := c.m_maxVersion

/-- Source `PluginConfig::setMaxVersion`. -/
def PluginConfig.setMaxVersion (c : PluginConfig V I) (maxVersion : V) : PluginConfig V I :=
  { c with m_maxVersion := maxVersion }

/-- Source `PluginConfig::instanceConfigs`. -/
def PluginConfig.instanceConfigs (c : PluginConfig V I) : List I := c.m_instanceConfigs

/-- Source `PluginConfig::setInstanceConfigs`. -/
def PluginConfig.setInstanceConfigs (c : PluginConfig V I) (instanceConfigs : List I) :
    PluginConfig V I :=
  { c with m_instanceConfigs := instanceConfigs }

/-- Source `QList<T>::operator==` for an element equality `eq`: same length and equal element
by element, in order. -/
def qlistEq (eq : I → I → Bool) : List I → List I → Bool
  | [], [] => true
  | a :: as, b :: bs => eq a b && qlistEq eq as bs
  | _, _ => false

/-- Source `operator==(const PluginConfig &left, const PluginConfig &right)` (lines 212-219). -/
def PluginConfig.eq (E : Collaborators V I) (left right : PluginConfig V I) : Bool :=
  (left.filePath == right.filePath) &&
  E.versionEq left.version right.version &&
  E.versionEq left.minVersion right.minVersion &&
  E.versionEq left.maxVersion right.maxVersion &&
  qlistEq E.instanceEq left.instanceConfigs right.instanceConfigs

/-! ### Vocabulary of the properties -/

/-- Modelled from the spec: the ordering `min <= max` of `VersionInfo` (its source file is
not under `src/`), which the spec gives as lexicographic: major, then minor, then patch. -/
def versionLe (E : Collaborators V I) (a b : V) : Bool :=
  decide (E.versionMajor a < E.versionMajor b ∨
    (E.versionMajor a = E.versionMajor b ∧
      (E.versionMinor a < E.versionMinor b ∨
        (E.versionMinor a = E.versionMinor b ∧ E.versionPatch a ≤ E.versionPatch b))))

/-- Modelled from the spec: the strict ordering `a < b` of `VersionInfo` (its source file is
not under `src/`), lexicographic: major, then minor, then patch. -/
def versionLt (E : Collaborators V I) (a b : V) : Bool :=
  decide (E.versionMajor a < E.versionMajor b ∨
    (E.versionMajor a = E.versionMajor b ∧
      (E.versionMinor a < E.versionMinor b ∨
        (E.versionMinor a = E.versionMinor b ∧ E.versionPatch a < E.versionPatch b))))

/-- What the spec says of `VersionInfo::isRangeValid`: true iff both bounds are non-null
and well-formed (that is `isValid`) and `min <= max`. -/
def RangeValidContract (E : Collaborators V I) : Prop :=
  ∀ mn mx : V, E.isRangeValid mn mx = true ↔
    (E.versionIsNull mn = false ∧ E.versionIsNull mx = false ∧
      E.versionIsValid mn = true ∧ E.versionIsValid mx = true ∧ versionLe E mn mx = true)

/-- The weaker assumption on `VersionInfo::isRangeValid`: false as soon as a bound is null. -/
def RangeRejectsNull (E : Collaborators V I) : Prop :=
  ∀ mn mx : V, (E.versionIsNull mn = true ∨ E.versionIsNull mx = true) →
    E.isRangeValid mn mx = false

/-- No two elements at distinct positions of `L` have equal `name()`. -/
def DistinctNames (E : Collaborators V I) (L : List I) : Prop :=
  ∀ i j : Fin L.length, i ≠ j → E.instanceName (L.get i) ≠ E.instanceName (L.get j)

/-- The all-pairs duplicate check that the spec gives as equivalent to the counting loops
of `isValid`: each element is compared with every later one, and the check passes when no
pair has equal names. -/
def allPairsDistinct (E : Collaborators V I) : List I → Bool
  | [] => true
  | x :: rest =>
    rest.all (fun y => !(E.instanceName x == E.instanceName y)) && allPairsDistinct E rest

/-- The set-based duplicate check that the spec allows in place of the counting loops: one
walk over the list with the set of the names met so far, failing at the first name that is
already in the set. -/
def setBasedDistinct (E : Collaborators V I) (seen : Finset QString) : List I → Bool
  | [] => true
  | x :: rest =>
    if E.instanceName x ∈ seen then false
    else setBasedDistinct E (insert (E.instanceName x) seen) rest

/-- The sequence `L` with its positions permuted by `σ`: position `i` of the result holds
the element that `L` has at position `σ i`. -/
def permutePositions (L : List I) (σ : Equiv.Perm (Fin L.length)) : List I :=
  List.ofFn (fun i => L.get (σ i))

end Source

/-! ### A concrete reading of the collaborators -/

/-- Modelled from the spec: the `VersionInfo` value (its source file is not under `src/`):
three integers major, minor, patch, plus a null state distinct from every real version. -/
inductive SpecVersionInfo where
  | null
  | version (major minor patch : Int)
  deriving DecidableEq

/-- Modelled from the spec: `VersionInfo::isNull`, true iff the value is the unset one. -/
def SpecVersionInfo.isNull : SpecVersionInfo → Bool
  | .null => true
  | .version _ _ _ => false

/-- Modelled from the spec: `VersionInfo::isValid`, true iff the value is non-null and
well-formed, that is its three numbers are non-negative. -/
def SpecVersionInfo.isValid : SpecVersionInfo → Bool
  | .null => false
  | .version major minor patch => decide (0 ≤ major) && decide (0 ≤ minor) && decide (0 ≤ patch)

/-- Modelled from the spec: the major number; the spec gives none to the null value, which
reads as `0` here. -/
def SpecVersionInfo.major : SpecVersionInfo → Int
  | .null => 0
  | .version major _ _ => major

/-- Modelled from the spec: the minor number (`0` for the null value). -/
def SpecVersionInfo.minor : SpecVersionInfo → Int
  | .null => 0
  | .version _ minor _ => minor

/-- Modelled from the spec: the patch number (`0` for the null value). -/
def SpecVersionInfo.patch : SpecVersionInfo → Int
  | .null => 0
  | .version _ _ patch => patch

/-- Modelled from the spec: `PluginInstanceConfig` (its source file is not under `src/`),
of which the spec keeps a name and its own validity. -/
structure SpecInstanceConfig where
  name : QString
  valid : Bool
  deriving DecidableEq

/-- Modelled from the spec: the collaborators of `PluginConfig` (none of their source files
is under `src/`): `validateFilePath` accepts the non-empty paths, `isRangeValid(min, max)`
holds iff both bounds are valid and `min <= max` in the lexicographic order, and the
equalities are structural. -/
def specCollaborators : Collaborators SpecVersionInfo SpecInstanceConfig where
  validateFilePath := fun path => !path.isEmpty
  versionDefault := SpecVersionInfo.null
  versionIsNull := SpecVersionInfo.isNull
  versionIsValid := SpecVersionInfo.isValid
  isRangeValid := fun mn mx =>
    mn.isValid && mx.isValid &&
      decide (mn.major < mx.major ∨
        (mn.major = mx.major ∧
          (mn.minor < mx.minor ∨ (mn.minor = mx.minor ∧ mn.patch ≤ mx.patch))))
  versionMajor := SpecVersionInfo.major
  versionMinor := SpecVersionInfo.minor
  versionPatch := SpecVersionInfo.patch
  versionEq := fun a b => decide (a = b)
  instanceIsValid := SpecInstanceConfig.valid
  instanceName := SpecInstanceConfig.name
  instanceEq := fun a b => decide (a = b)

/-- A valid instance configuration of the given name, the spec's `InstanceConfig("a")`. -/
def InstanceConfig (name : QString) : SpecInstanceConfig := { name := name, valid := true }

/-- The spec's `VersionInfo(major, minor, patch)`. -/
def VersionInfo (major minor patch : Int) : SpecVersionInfo :=
  SpecVersionInfo.version major minor patch

/-! ### The loops of `isValid` -/

section Loops

variable {V I : Type}

theorem instancesValidLoop_iff (E : Collaborators V I) (L : List I) :
    instancesValidLoop E L = true ↔ ∀ x ∈ L, E.instanceIsValid x = true := by
  induction L with
  | nil => simp [instancesValidLoop]
  | cons a rest ih =>
    cases h : E.instanceIsValid a <;> simp [instancesValidLoop, h, ih]

theorem duplicateInnerLoop_iff (E : Collaborators V I) (t : I) (items : List I) (count : Nat)
    (hcount : count ≤ 1) :
    duplicateInnerLoop E t items count = true ↔
      count + (items.map E.instanceName).count (E.instanceName t) ≤ 1 := by
  induction items generalizing count with
  | nil => simpa [duplicateInnerLoop] using hcount
  | cons a rest ih =>
    by_cases h : E.instanceName a = E.instanceName t
    · by_cases hc : count = 0
      · subst hc
        simp [duplicateInnerLoop, h, ih]
      · have hpos : 0 < count := Nat.pos_of_ne_zero hc
        simp [duplicateInnerLoop, h]
        omega
    · simp [duplicateInnerLoop, h, ih count hcount, List.count_cons]

theorem duplicateOuterLoop_iff (E : Collaborators V I) (all rest : List I) :
    duplicateOuterLoop E all rest = true ↔
      ∀ t ∈ rest, (all.map E.instanceName).count (E.instanceName t) ≤ 1 := by
  induction rest with
  | nil => simp [duplicateOuterLoop]
  | cons a rest ih =>
    cases h : duplicateInnerLoop E a all 0
    · have h2 : ¬ (all.map E.instanceName).count (E.instanceName a) ≤ 1 := by
        intro hle
        have := (duplicateInnerLoop_iff E a all 0 (by omega)).2 (by simpa using hle)
        simp [h] at this
      simp [duplicateOuterLoop, h, h2]
    · have h2 : (all.map E.instanceName).count (E.instanceName a) ≤ 1 := by
        simpa using (duplicateInnerLoop_iff E a all 0 (by omega)).1 h
      simp [duplicateOuterLoop, h, h2, ih]

theorem duplicateOuterLoop_nodup (E : Collaborators V I) (L : List I) :
    duplicateOuterLoop E L L = true ↔ (L.map E.instanceName).Nodup := by
  rw [duplicateOuterLoop_iff, List.nodup_iff_count_le_one]
  constructor
  · intro h n
    by_cases hn : n ∈ L.map E.instanceName
    · obtain ⟨t, ht, rfl⟩ := List.mem_map.1 hn
      exact h t ht
    · rw [List.count_eq_zero_of_not_mem hn]; omega
  · intro h t _
    exact h _

theorem distinctNames_iff_nodup (E : Collaborators V I) (L : List I) :
    DistinctNames E L ↔ (L.map E.instanceName).Nodup := by
  unfold DistinctNames
  rw [List.nodup_iff_injective_get]
  constructor
  · intro h i j hij
    by_contra hne
    have hi : i.1 < L.length := by simpa using i.2
    have hj : j.1 < L.length := by simpa using j.2
    have hne2 : (⟨i.1, hi⟩ : Fin L.length) ≠ ⟨j.1, hj⟩ := by
      intro heq
      apply hne
      exact Fin.ext (by simpa using congrArg Fin.val heq)
    apply h ⟨i.1, hi⟩ ⟨j.1, hj⟩ hne2
    simpa using hij
  · intro h i j hij heq
    have hi : i.1 < (L.map E.instanceName).length := by simp
    have hj : j.1 < (L.map E.instanceName).length := by simp
    have := @h ⟨i.1, hi⟩ ⟨j.1, hj⟩ (by simpa using heq)
    apply hij
    exact Fin.ext (by simpa using congrArg Fin.val this)

theorem duplicateOuterLoop_distinct (E : Collaborators V I) (L : List I) :
    duplicateOuterLoop E L L = true ↔ DistinctNames E L := by
  rw [duplicateOuterLoop_nodup, distinctNames_iff_nodup]

/-- The value of `isValid` as the conjunction of its five steps. -/
theorem isValid_iff_steps (E : Collaborators V I) (c : PluginConfig V I) :
    c.isValid E = true ↔
      (E.validateFilePath c.m_filePath = true ∧
        (if c.isExactVersion E = true then E.versionIsValid c.m_version = true
          else E.isRangeValid c.m_minVersion c.m_maxVersion = true) ∧
        c.m_instanceConfigs ≠ [] ∧
        (∀ x ∈ c.m_instanceConfigs, E.instanceIsValid x = true) ∧
        DistinctNames E c.m_instanceConfigs) := by
  rw [← duplicateOuterLoop_distinct, ← instancesValidLoop_iff]
  unfold PluginConfig.isValid
  cases E.validateFilePath c.m_filePath <;> cases c.isExactVersion E <;>
    cases E.versionIsValid c.m_version <;>
    cases E.isRangeValid c.m_minVersion c.m_maxVersion <;>
    cases instancesValidLoop E c.m_instanceConfigs <;>
    cases duplicateOuterLoop E c.m_instanceConfigs c.m_instanceConfigs <;>
    cases hL : c.m_instanceConfigs <;> simp

end Loops

/-! ### Facts about the vocabulary and the concrete collaborators -/

section Vocabulary

variable {V I : Type}

theorem versionLe_refl (E : Collaborators V I) (a : V) : versionLe E a a = true := by
  simp [versionLe]

theorem versionLe_of_versionLt_false (E : Collaborators V I) (a b : V)
    (h : versionLt E b a = true) : versionLe E a b = false := by
  simp only [versionLt, decide_eq_true_eq] at h
  simp only [versionLe, decide_eq_false_iff_not]
  omega

theorem isExactVersion_false_of_min (E : Collaborators V I) (c : PluginConfig V I)
    (h : E.versionIsNull c.m_minVersion = false) : c.isExactVersion E = false := by
  simp [PluginConfig.isExactVersion, h]

theorem isExactVersion_false_of_version (E : Collaborators V I) (c : PluginConfig V I)
    (h : E.versionIsNull c.m_version = true) : c.isExactVersion E = false := by
  simp [PluginConfig.isExactVersion, h]

theorem isValid_false_of_range_rule (E : Collaborators V I) (c : PluginConfig V I)
    (hexact : c.isExactVersion E = false)
    (hrange : E.isRangeValid c.m_minVersion c.m_maxVersion = false) :
    c.isValid E = false := by
  cases hv : c.isValid E
  · rfl
  · have h := ((isValid_iff_steps E c).1 hv).2.1
    simp [hexact, hrange] at h

theorem spec_rangeValidContract : RangeValidContract specCollaborators := by
  intro mn mx
  cases mn <;> cases mx <;>
    simp [specCollaborators, versionLe, SpecVersionInfo.isValid, SpecVersionInfo.isNull,
      SpecVersionInfo.major, SpecVersionInfo.minor, SpecVersionInfo.patch, and_assoc]

theorem spec_rangeRejectsNull : RangeRejectsNull specCollaborators := by
  intro mn mx h
  cases mn <;> cases mx <;>
    simp_all [specCollaborators, SpecVersionInfo.isValid, SpecVersionInfo.isNull]

theorem spec_valid_nonnull (v : SpecVersionInfo)
    (h : specCollaborators.versionIsValid v = true) :
    specCollaborators.versionIsNull v = false := by
  cases v <;> simp_all [specCollaborators, SpecVersionInfo.isValid, SpecVersionInfo.isNull]

end Vocabulary

/-! ### The validation contract -/

section Validation

variable {V I : Type}

/-- C1: for every `PluginConfig` value, `isValid()` returns true if and only if the five
conditions hold together: the file path passes `validateFilePath`; the version of an exact
configuration is valid, and otherwise `isRangeValid(minVersion, maxVersion)` holds; the
instance list is non-empty; every instance is valid; no two instances at distinct positions
have equal names.  The collaborators are arbitrary pure functions. -/
theorem isValid_iff_five_conditions (E : Collaborators V I) (c : PluginConfig V I) :
    c.isValid E = true ↔
      (E.validateFilePath c.filePath = true ∧
        (if c.isExactVersion E = true then E.versionIsValid c.version = true
          else E.isRangeValid c.minVersion c.maxVersion = true) ∧
        c.instanceConfigs ≠ [] ∧
        (∀ x ∈ c.instanceConfigs, E.instanceIsValid x = true) ∧
        (∀ i j : Fin c.instanceConfigs.length, i ≠ j →
          E.instanceName (c.instanceConfigs.get i) ≠ E.instanceName (c.instanceConfigs.get j))) :=
  isValid_iff_steps E c

/-- C2, on the failing input: with `isRangeValid` as the spec describes it, the value built
in exact mode with version 3.1.4 and then given the bounds 1.0.0 and 2.0.0 by
`setMinVersion` and `setMaxVersion` is refused by both `isExactVersion()` and
`isVersionRange()`, and `isValid()` returns true on it, where the claim requires false: the
else branch of `isValid` applies the range rule without asking `isVersionRange()`. -/
theorem isValid_accepts_neither_mode :
    RangeValidContract specCollaborators ∧
    ((((PluginConfig.mkExact specCollaborators "/plugins/foo.so" (VersionInfo 3 1 4)
        [InstanceConfig "a"]).setMinVersion (VersionInfo 1 0 0)).setMaxVersion
        (VersionInfo 2 0 0)).isExactVersion specCollaborators = false) ∧
    ((((PluginConfig.mkExact specCollaborators "/plugins/foo.so" (VersionInfo 3 1 4)
        [InstanceConfig "a"]).setMinVersion (VersionInfo 1 0 0)).setMaxVersion
        (VersionInfo 2 0 0)).isVersionRange specCollaborators = false) ∧
    ((((PluginConfig.mkExact specCollaborators "/plugins/foo.so" (VersionInfo 3 1 4)
        [InstanceConfig "a"]).setMinVersion (VersionInfo 1 0 0)).setMaxVersion
        (VersionInfo 2 0 0)).isValid specCollaborators = true) :=
  ⟨spec_rangeValidContract, by decide, by decide, by decide⟩

/-- C3, on the failing input: with `isRangeValid` as the spec describes it, the value built
in range mode with the bounds 1.0.0 and 2.0.0 and then given the version 1.0.0 by
`setVersion` has its three versions non-null (mixed mode), and `isValid()` returns true on it,
where the claim requires false: the else branch of `isValid` applies the range rule without
asking `isVersionRange()`. -/
theorem isValid_accepts_mixed_mode :
    RangeValidContract specCollaborators ∧
    (specCollaborators.versionIsNull ((PluginConfig.mkRange specCollaborators "/plugins/foo.so"
        (VersionInfo 1 0 0) (VersionInfo 2 0 0) [InstanceConfig "a", InstanceConfig "b"]).setVersion
        (VersionInfo 1 0 0)).version = false) ∧
    (specCollaborators.versionIsNull ((PluginConfig.mkRange specCollaborators "/plugins/foo.so"
        (VersionInfo 1 0 0) (VersionInfo 2 0 0) [InstanceConfig "a", InstanceConfig "b"]).setVersion
        (VersionInfo 1 0 0)).minVersion = false) ∧
    (specCollaborators.versionIsNull ((PluginConfig.mkRange specCollaborators "/plugins/foo.so"
        (VersionInfo 1 0 0) (VersionInfo 2 0 0) [InstanceConfig "a", InstanceConfig "b"]).setVersion
        (VersionInfo 1 0 0)).maxVersion = false) ∧
    (((PluginConfig.mkRange specCollaborators "/plugins/foo.so"
        (VersionInfo 1 0 0) (VersionInfo 2 0 0) [InstanceConfig "a", InstanceConfig "b"]).setVersion
        (VersionInfo 1 0 0)).isValid specCollaborators = true) :=
  ⟨spec_rangeValidContract, by decide, by decide, by decide, by decide⟩

/-- C4: for every path accepted by `validateFilePath`, every valid version and every
non-empty list of valid instances with pairwise distinct names, the value built by the
exact-mode constructor has `isValid()` true; assumed of `VersionInfo`: the
default-constructed value is null and a valid value is non-null. -/
theorem exact_mode_valid (E : Collaborators V I)
    (hdefault : E.versionIsNull E.versionDefault = true)
    (hnonnull : ∀ v : V, E.versionIsValid v = true → E.versionIsNull v = false)
    (p : QString) (v : V) (L : List I)
    (hp : E.validateFilePath p = true) (hv : E.versionIsValid v = true)
    (hne : L ≠ []) (hall : ∀ x ∈ L, E.instanceIsValid x = true)
    (hdist : ∀ i j : Fin L.length, i ≠ j → E.instanceName (L.get i) ≠ E.instanceName (L.get j)) :
    (PluginConfig.mkExact E p v L).isValid E = true := by
  rw [isValid_iff_steps]
  have hexact : (PluginConfig.mkExact E p v L).isExactVersion E = true := by
    simp [PluginConfig.isExactVersion, PluginConfig.mkExact, hdefault, hnonnull v hv]
  rw [hexact]
  exact ⟨hp, by simpa [PluginConfig.mkExact] using hv, hne, hall, hdist⟩

/-- Witness of C4: the example scenario of the spec, which is valid, exact and not a range. -/
theorem exact_mode_valid_witness :
    (PluginConfig.mkExact specCollaborators "/plugins/foo.so" (VersionInfo 1 0 0)
      [InstanceConfig "a", InstanceConfig "b"]).isValid specCollaborators = true ∧
    (PluginConfig.mkExact specCollaborators "/plugins/foo.so" (VersionInfo 1 0 0)
      [InstanceConfig "a", InstanceConfig "b"]).isExactVersion specCollaborators = true ∧
    (PluginConfig.mkExact specCollaborators "/plugins/foo.so" (VersionInfo 1 0 0)
      [InstanceConfig "a", InstanceConfig "b"]).isVersionRange specCollaborators = false :=
  ⟨exact_mode_valid specCollaborators (by decide) spec_valid_nonnull "/plugins/foo.so"
      (VersionInfo 1 0 0) [InstanceConfig "a", InstanceConfig "b"]
      (by decide) (by decide) (by decide) (by decide) (by decide),
    by decide, by decide⟩

/-- C5: for every path accepted by `validateFilePath`, every pair of valid, non-null versions
with min <= max in the lexicographic (major, minor, patch) order, and every non-empty list
of valid instances with pairwise distinct names, the value built by the range-mode
constructor has `isValid()` true, and so has the one built with min = max; assumed of
`VersionInfo`: `isRangeValid` is as the spec describes it. -/
theorem range_mode_valid (E : Collaborators V I) (hrange : RangeValidContract E)
    (p : QString) (L : List I)
    (hp : E.validateFilePath p = true)
    (hne : L ≠ []) (hall : ∀ x ∈ L, E.instanceIsValid x = true)
    (hdist : ∀ i j : Fin L.length, i ≠ j → E.instanceName (L.get i) ≠ E.instanceName (L.get j)) :
    (∀ mn mx : V, E.versionIsValid mn = true → E.versionIsNull mn = false →
      E.versionIsValid mx = true → E.versionIsNull mx = false → versionLe E mn mx = true →
      (PluginConfig.mkRange E p mn mx L).isValid E = true) ∧
    (∀ v : V, E.versionIsValid v = true → E.versionIsNull v = false →
      (PluginConfig.mkRange E p v v L).isValid E = true) := by
  have key : ∀ mn mx : V, E.versionIsValid mn = true → E.versionIsNull mn = false →
      E.versionIsValid mx = true → E.versionIsNull mx = false → versionLe E mn mx = true →
      (PluginConfig.mkRange E p mn mx L).isValid E = true := by
    intro mn mx hvmn hnmn hvmx hnmx hle
    rw [isValid_iff_steps]
    have hexact : (PluginConfig.mkRange E p mn mx L).isExactVersion E = false :=
      isExactVersion_false_of_min E _ hnmn
    rw [hexact]
    refine ⟨hp, ?_, hne, hall, hdist⟩
    simpa [PluginConfig.mkRange] using (hrange mn mx).2 ⟨hnmn, hnmx, hvmn, hvmx, hle⟩
  exact ⟨key, fun v hv hn => key v v hv hn hv hn (versionLe_refl E v)⟩

/-- Witness of C5: the range 1.2.3 to 1.10.0, and the range 1.2.3 to 1.2.3. -/
theorem range_mode_valid_witness :
    (PluginConfig.mkRange specCollaborators "/plugins/foo.so" (VersionInfo 1 2 3)
      (VersionInfo 1 10 0) [InstanceConfig "a", InstanceConfig "b"]).isValid specCollaborators
      = true ∧
    (PluginConfig.mkRange specCollaborators "/plugins/foo.so" (VersionInfo 1 2 3)
      (VersionInfo 1 2 3) [InstanceConfig "a", InstanceConfig "b"]).isValid specCollaborators
      = true :=
  ⟨(range_mode_valid specCollaborators spec_rangeValidContract "/plugins/foo.so"
      [InstanceConfig "a", InstanceConfig "b"] (by decide) (by decide) (by decide)
      (by decide)).1 (VersionInfo 1 2 3) (VersionInfo 1 10 0)
      (by decide) (by decide) (by decide) (by decide) (by decide),
   (range_mode_valid specCollaborators spec_rangeValidContract "/plugins/foo.so"
      [InstanceConfig "a", InstanceConfig "b"] (by decide) (by decide) (by decide)
      (by decide)).2 (VersionInfo 1 2 3) (by decide) (by decide)⟩

/-- C6: every `PluginConfig` value whose instance list has two elements at distinct
positions with equal names has `isValid()` false, whatever the other fields and the two
positions are. -/
theorem duplicate_name_invalid (E : Collaborators V I) (c : PluginConfig V I)
    (i j : Fin c.instanceConfigs.length) (hij : i ≠ j)
    (hname : E.instanceName (c.instanceConfigs.get i) = E.instanceName (c.instanceConfigs.get j)) :
    c.isValid E = false := by
  cases hv : c.isValid E
  · rfl
  · exact absurd hname (((isValid_iff_steps E c).1 hv).2.2.2.2 i j hij)

/-- Witness of C6: two instances named instanceA, first and last of three. -/
theorem duplicate_name_invalid_witness :
    (PluginConfig.mkExact specCollaborators "/plugins/foo.so" (VersionInfo 1 0 0)
      [InstanceConfig "instanceA", InstanceConfig "b", InstanceConfig "instanceA"]).isValid
      specCollaborators = false :=
  duplicate_name_invalid specCollaborators
    (PluginConfig.mkExact specCollaborators "/plugins/foo.so" (VersionInfo 1 0 0)
      [InstanceConfig "instanceA", InstanceConfig "b", InstanceConfig "instanceA"])
    ⟨0, by decide⟩ ⟨2, by decide⟩ (by decide) (by decide)

/-- C7: every value built by the range-mode constructor with non-null versions min and max
such that min > max in the lexicographic (major, minor, patch) order has `isValid()` false,
whatever the file path and the instances are; assumed of `VersionInfo`: `isRangeValid` is as
the spec describes it. -/
theorem range_mode_inverted_invalid (E : Collaborators V I) (hrange : RangeValidContract E)
    (p : QString) (mn mx : V) (L : List I)
    (hnmn : E.versionIsNull mn = false) (_hnmx : E.versionIsNull mx = false)
    (hgt : versionLt E mx mn = true) :
    (PluginConfig.mkRange E p mn mx L).isValid E = false := by
  apply isValid_false_of_range_rule E _ (isExactVersion_false_of_min E _ hnmn)
  cases hr : E.isRangeValid (PluginConfig.mkRange E p mn mx L).m_minVersion
      (PluginConfig.mkRange E p mn mx L).m_maxVersion
  · rfl
  · have hle := ((hrange _ _).1 hr).2.2.2.2
    have hnle := versionLe_of_versionLt_false E mn mx hgt
    simp [PluginConfig.mkRange, hnle] at hle

/-- Witness of C7: the example scenario of the spec, min = 2.0.0 and max = 1.0.0. -/
theorem range_mode_inverted_invalid_witness :
    (PluginConfig.mkRange specCollaborators "/plugins/foo.so" (VersionInfo 2 0 0)
      (VersionInfo 1 0 0) [InstanceConfig "a"]).isValid specCollaborators = false :=
  range_mode_inverted_invalid specCollaborators spec_rangeValidContract "/plugins/foo.so"
    (VersionInfo 2 0 0) (VersionInfo 1 0 0) [InstanceConfig "a"]
    (by decide) (by decide) (by decide)

/-- C8: every `PluginConfig` value in which version, minVersion and maxVersion are all null
has `isValid()` false, whatever the file path and the instances are; assumed of
`VersionInfo`: `isRangeValid(min, max)` is false whenever min or max is null. -/
theorem all_null_invalid (E : Collaborators V I) (hreject : RangeRejectsNull E)
    (c : PluginConfig V I)
    (hv : E.versionIsNull c.version = true) (hmn : E.versionIsNull c.minVersion = true)
    (_hmx : E.versionIsNull c.maxVersion = true) :
    c.isValid E = false :=
  isValid_false_of_range_rule E c (isExactVersion_false_of_version E c hv)
    (hreject c.m_minVersion c.m_maxVersion (Or.inl hmn))

/-- Witness of C8: the exact-mode constructor called with a null version. -/
theorem all_null_invalid_witness :
    (PluginConfig.mkExact specCollaborators "/plugins/foo.so" SpecVersionInfo.null
      [InstanceConfig "a"]).isValid specCollaborators = false :=
  all_null_invalid specCollaborators spec_rangeRejectsNull
    (PluginConfig.mkExact specCollaborators "/plugins/foo.so" SpecVersionInfo.null
      [InstanceConfig "a"]) (by decide) (by decide) (by decide)

/-- C9: every `PluginConfig` value whose instance list is empty has `isValid()` false,
whatever the file path and the three versions are. -/
theorem empty_instances_invalid (E : Collaborators V I) (c : PluginConfig V I)
    (hempty : c.instanceConfigs = []) : c.isValid E = false := by
  cases hv : c.isValid E
  · rfl
  · exact absurd hempty ((isValid_iff_steps E c).1 hv).2.2.1

/-- Witness of C9: an exact-mode value with no instance. -/
theorem empty_instances_invalid_witness :
    (PluginConfig.mkExact specCollaborators "/plugins/foo.so" (VersionInfo 1 0 0)
      []).isValid specCollaborators = false :=
  empty_instances_invalid specCollaborators
    (PluginConfig.mkExact specCollaborators "/plugins/foo.so" (VersionInfo 1 0 0) []) rfl

/-- C10: every `PluginConfig` value whose instance list contains, at any position, an
element whose own `isValid()` is false has `isValid()` false, whatever the other elements
and the other fields are. -/
theorem invalid_instance_invalid (E : Collaborators V I) (c : PluginConfig V I)
    (x : I) (hmem : x ∈ c.instanceConfigs) (hbad : E.instanceIsValid x = false) :
    c.isValid E = false := by
  cases hv : c.isValid E
  · rfl
  · have h := ((isValid_iff_steps E c).1 hv).2.2.2.1 x hmem
    rw [hbad] at h
    exact absurd h (by decide)

/-- Witness of C10: an invalid instance between two valid ones. -/
theorem invalid_instance_invalid_witness :
    (PluginConfig.mkExact specCollaborators "/plugins/foo.so" (VersionInfo 1 0 0)
      [InstanceConfig "a", ⟨"bad", false⟩, InstanceConfig "b"]).isValid specCollaborators
      = false :=
  invalid_instance_invalid specCollaborators
    (PluginConfig.mkExact specCollaborators "/plugins/foo.so" (VersionInfo 1 0 0)
      [InstanceConfig "a", ⟨"bad", false⟩, InstanceConfig "b"])
    ⟨"bad", false⟩ (by decide) (by decide)

end Validation

/-! ### Construction, mode predicates and equality -/

section Equality

variable {V I : Type}

theorem qlistEq_iff_forall₂ (eq : I → I → Bool) (as bs : List I) :
    qlistEq eq as bs = true ↔ List.Forall₂ (fun a b => eq a b = true) as bs := by
  induction as generalizing bs with
  | nil => cases bs <;> simp [qlistEq]
  | cons a as ih => cases bs <;> simp [qlistEq, ih]

theorem qlistEq_iff_get (eq : I → I → Bool) (as bs : List I) :
    qlistEq eq as bs = true ↔
      (as.length = bs.length ∧
        ∀ (i : Nat) (h₁ : i < as.length) (h₂ : i < bs.length),
          eq (as.get ⟨i, h₁⟩) (bs.get ⟨i, h₂⟩) = true) := by
  rw [qlistEq_iff_forall₂, List.forall₂_iff_get]

theorem eq_iff_fields (E : Collaborators V I) (a b : PluginConfig V I) :
    PluginConfig.eq E a b = true ↔
      (a.filePath = b.filePath ∧
        E.versionEq a.version b.version = true ∧
        E.versionEq a.minVersion b.minVersion = true ∧
        E.versionEq a.maxVersion b.maxVersion = true ∧
        a.instanceConfigs.length = b.instanceConfigs.length ∧
        ∀ (i : Nat) (h₁ : i < a.instanceConfigs.length) (h₂ : i < b.instanceConfigs.length),
          E.instanceEq (a.instanceConfigs.get ⟨i, h₁⟩) (b.instanceConfigs.get ⟨i, h₂⟩) = true) := by
  simp only [PluginConfig.eq, Bool.and_eq_true, qlistEq_iff_get, beq_iff_eq, and_assoc]

/-- C11: the exact-mode constructor yields a value whose `filePath()`, `version()` and
`instanceConfigs()` are its arguments and whose `minVersion()` and `maxVersion()` are null, so
that it is exact and not a range whenever the version is non-null; the range-mode
constructor yields a value whose `filePath()`, `minVersion()`, `maxVersion()` and
`instanceConfigs()` are its arguments and whose `version()` is null, so that it is a range
and not exact whenever both bounds are non-null; assumed of `VersionInfo`: the
default-constructed value is null. -/
theorem constructor_modes (E : Collaborators V I)
    (hdefault : E.versionIsNull E.versionDefault = true) :
    (∀ (p : QString) (v : V) (L : List I),
      (PluginConfig.mkExact E p v L).filePath = p ∧
      (PluginConfig.mkExact E p v L).version = v ∧
      (PluginConfig.mkExact E p v L).instanceConfigs = L ∧
      E.versionIsNull (PluginConfig.mkExact E p v L).minVersion = true ∧
      E.versionIsNull (PluginConfig.mkExact E p v L).maxVersion = true ∧
      (E.versionIsNull v = false →
        (PluginConfig.mkExact E p v L).isExactVersion E = true ∧
        (PluginConfig.mkExact E p v L).isVersionRange E = false)) ∧
    (∀ (p : QString) (mn mx : V) (L : List I),
      (PluginConfig.mkRange E p mn mx L).filePath = p ∧
      (PluginConfig.mkRange E p mn mx L).minVersion = mn ∧
      (PluginConfig.mkRange E p mn mx L).maxVersion = mx ∧
      (PluginConfig.mkRange E p mn mx L).instanceConfigs = L ∧
      E.versionIsNull (PluginConfig.mkRange E p mn mx L).version = true ∧
      (E.versionIsNull mn = false → E.versionIsNull mx = false →
        (PluginConfig.mkRange E p mn mx L).isVersionRange E = true ∧
        (PluginConfig.mkRange E p mn mx L).isExactVersion E = false)) := by
  refine ⟨fun p v L => ⟨rfl, rfl, rfl, hdefault, hdefault, fun hv => ?_⟩,
    fun p mn mx L => ⟨rfl, rfl, rfl, rfl, hdefault, fun hmn hmx => ?_⟩⟩
  · simp [PluginConfig.isExactVersion, PluginConfig.isVersionRange, PluginConfig.mkExact,
      hdefault, hv]
  · simp [PluginConfig.isExactVersion, PluginConfig.isVersionRange, PluginConfig.mkRange,
      hdefault, hmn, hmx]

/-- Witness of C11: the exact construction of the spec's example is exact and not a range,
and the range construction 1.0.0 to 2.0.0 is a range and not exact. -/
theorem constructor_modes_witness :
    ((PluginConfig.mkExact specCollaborators "/plugins/foo.so" (VersionInfo 1 0 0)
        [InstanceConfig "a", InstanceConfig "b"]).isExactVersion specCollaborators = true ∧
      (PluginConfig.mkExact specCollaborators "/plugins/foo.so" (VersionInfo 1 0 0)
        [InstanceConfig "a", InstanceConfig "b"]).isVersionRange specCollaborators = false) ∧
    ((PluginConfig.mkRange specCollaborators "/plugins/foo.so" (VersionInfo 1 0 0)
        (VersionInfo 2 0 0) [InstanceConfig "a"]).isVersionRange specCollaborators = true ∧
      (PluginConfig.mkRange specCollaborators "/plugins/foo.so" (VersionInfo 1 0 0)
        (VersionInfo 2 0 0) [InstanceConfig "a"]).isExactVersion specCollaborators = false) :=
  ⟨((constructor_modes specCollaborators (by decide)).1 "/plugins/foo.so" (VersionInfo 1 0 0)
      [InstanceConfig "a", InstanceConfig "b"]).2.2.2.2.2 (by decide),
   ((constructor_modes specCollaborators (by decide)).2 "/plugins/foo.so" (VersionInfo 1 0 0)
      (VersionInfo 2 0 0) [InstanceConfig "a"]).2.2.2.2.2 (by decide) (by decide)⟩

/-- C12: for every `PluginConfig` value, `isExactVersion()` is true iff the version is
non-null and both bounds are null, `isVersionRange()` is true iff the version is null and both
bounds are non-null, and no value has both predicates true. -/
theorem mode_predicates (E : Collaborators V I) (c : PluginConfig V I) :
    (c.isExactVersion E = true ↔
      (E.versionIsNull c.version = false ∧ E.versionIsNull c.minVersion = true ∧
        E.versionIsNull c.maxVersion = true)) ∧
    (c.isVersionRange E = true ↔
      (E.versionIsNull c.version = true ∧ E.versionIsNull c.minVersion = false ∧
        E.versionIsNull c.maxVersion = false)) ∧
    ¬ (c.isExactVersion E = true ∧ c.isVersionRange E = true) := by
  simp only [PluginConfig.isExactVersion, PluginConfig.isVersionRange, PluginConfig.version,
    PluginConfig.minVersion, PluginConfig.maxVersion]
  cases E.versionIsNull c.m_version <;> cases E.versionIsNull c.m_minVersion <;>
    cases E.versionIsNull c.m_maxVersion <;> simp

/-- C13: `operator==` on `PluginConfig` is structural, that is `a == b` iff the file paths
are equal, the three versions are pairwise equal under `operator==` of `VersionInfo`, and the
two instance sequences have the same length and are equal element by element, in order,
under `operator==` of `PluginInstanceConfig`; and when the equalities of `VersionInfo` and
`PluginInstanceConfig` are reflexive, symmetric and transitive (that of `QString` is), it is
reflexive, symmetric and transitive. -/
theorem eq_structural_equivalence (E : Collaborators V I)
    (hvrefl : ∀ v : V, E.versionEq v v = true)
    (hvsymm : ∀ v w : V, E.versionEq v w = true → E.versionEq w v = true)
    (hvtrans : ∀ u v w : V, E.versionEq u v = true → E.versionEq v w = true →
      E.versionEq u w = true)
    (hirefl : ∀ x : I, E.instanceEq x x = true)
    (hisymm : ∀ x y : I, E.instanceEq x y = true → E.instanceEq y x = true)
    (hitrans : ∀ x y z : I, E.instanceEq x y = true → E.instanceEq y z = true →
      E.instanceEq x z = true) :
    (∀ a b : PluginConfig V I, PluginConfig.eq E a b = true ↔
      (a.filePath = b.filePath ∧
        E.versionEq a.version b.version = true ∧
        E.versionEq a.minVersion b.minVersion = true ∧
        E.versionEq a.maxVersion b.maxVersion = true ∧
        a.instanceConfigs.length = b.instanceConfigs.length ∧
        ∀ (i : Nat) (h₁ : i < a.instanceConfigs.length) (h₂ : i < b.instanceConfigs.length),
          E.instanceEq (a.instanceConfigs.get ⟨i, h₁⟩) (b.instanceConfigs.get ⟨i, h₂⟩) = true)) ∧
    (∀ a : PluginConfig V I, PluginConfig.eq E a a = true) ∧
    (∀ a b : PluginConfig V I, PluginConfig.eq E a b = true → PluginConfig.eq E b a = true) ∧
    (∀ a b c : PluginConfig V I, PluginConfig.eq E a b = true → PluginConfig.eq E b c = true →
      PluginConfig.eq E a c = true) := by
  refine ⟨eq_iff_fields E, fun a => ?_, fun a b hab => ?_, fun a b c hab hbc => ?_⟩
  · exact (eq_iff_fields E a a).2
      ⟨rfl, hvrefl _, hvrefl _, hvrefl _, rfl, fun i h₁ _ => hirefl _⟩
  · obtain ⟨hp, hv, hmn, hmx, hlen, hget⟩ := (eq_iff_fields E a b).1 hab
    exact (eq_iff_fields E b a).2
      ⟨hp.symm, hvsymm _ _ hv, hvsymm _ _ hmn, hvsymm _ _ hmx, hlen.symm,
        fun i h₁ h₂ => hisymm _ _ (hget i h₂ h₁)⟩
  · obtain ⟨hp, hv, hmn, hmx, hlen, hget⟩ := (eq_iff_fields E a b).1 hab
    obtain ⟨hp2, hv2, hmn2, hmx2, hlen2, hget2⟩ := (eq_iff_fields E b c).1 hbc
    exact (eq_iff_fields E a c).2
      ⟨hp.trans hp2, hvtrans _ _ _ hv hv2, hvtrans _ _ _ hmn hmn2, hvtrans _ _ _ hmx hmx2,
        hlen.trans hlen2,
        fun i h₁ h₃ => hitrans _ _ _ (hget i h₁ (hlen ▸ h₁)) (hget2 i (hlen ▸ h₁) h₃)⟩

/-- Witness of C13: with the structural equalities of the concrete collaborators, a range
configuration compares equal to itself. -/
theorem eq_structural_equivalence_witness :
    PluginConfig.eq specCollaborators
      (PluginConfig.mkRange specCollaborators "/plugins/foo.so" (VersionInfo 1 0 0)
        (VersionInfo 2 0 0) [InstanceConfig "a", InstanceConfig "b"])
      (PluginConfig.mkRange specCollaborators "/plugins/foo.so" (VersionInfo 1 0 0)
        (VersionInfo 2 0 0) [InstanceConfig "a", InstanceConfig "b"]) = true :=
  (eq_structural_equivalence specCollaborators
    (fun v => by simp [specCollaborators])
    (fun v w h => by simp_all [specCollaborators])
    (fun u v w h₁ h₂ => by simp_all [specCollaborators])
    (fun x => by simp [specCollaborators])
    (fun x y h => by simp_all [specCollaborators])
    (fun x y z h₁ h₂ => by simp_all [specCollaborators])).2.1
    (PluginConfig.mkRange specCollaborators "/plugins/foo.so" (VersionInfo 1 0 0)
      (VersionInfo 2 0 0) [InstanceConfig "a", InstanceConfig "b"])

theorem permutePositions_length (L : List I) (σ : Equiv.Perm (Fin L.length)) :
    (permutePositions L σ).length = L.length := by
  simp [permutePositions]

theorem permutePositions_get (L : List I) (σ : Equiv.Perm (Fin L.length)) (i : Nat)
    (h₁ : i < (permutePositions L σ).length) (h₂ : i < L.length) :
    (permutePositions L σ).get ⟨i, h₁⟩ = L.get (σ ⟨i, h₂⟩) := by
  simp [permutePositions]

theorem exists_moved_position {n : Nat} (σ : Equiv.Perm (Fin n)) (hσ : σ ≠ 1) :
    ∃ i : Fin n, σ i ≠ i := by
  by_contra hall
  apply hσ
  ext i
  have := not_exists.1 hall i
  simpa using congrArg Fin.val (not_not.1 this)

/-- C14, as stated, fails: in a configuration with two equal instance configurations,
exchanging the two positions is not the identity on positions, yet the value with the
permuted sequence compares equal to the original. -/
theorem reorder_equal_counterexample :
    (Equiv.swap (⟨0, by decide⟩ : Fin [InstanceConfig "a", InstanceConfig "a"].length)
        ⟨1, by decide⟩ ≠ 1) ∧
    PluginConfig.eq specCollaborators
      ((PluginConfig.mkExact specCollaborators "/plugins/foo.so" (VersionInfo 1 0 0)
          [InstanceConfig "a", InstanceConfig "a"]).setInstanceConfigs
        (permutePositions [InstanceConfig "a", InstanceConfig "a"]
          (Equiv.swap ⟨0, by decide⟩ ⟨1, by decide⟩)))
      (PluginConfig.mkExact specCollaborators "/plugins/foo.so" (VersionInfo 1 0 0)
          [InstanceConfig "a", InstanceConfig "a"]) = true :=
  ⟨by decide, by decide⟩

/-- C14, amended: for every `PluginConfig` value whose instance configurations at distinct
positions are pairwise unequal under `operator==` of `PluginInstanceConfig`, and every
permutation of the positions that is not the identity, the value obtained by
`setInstanceConfigs` with the permuted sequence does not compare equal to the original, in
either order of the operands. -/
theorem reorder_distinct_unequal (E : Collaborators V I) (c : PluginConfig V I)
    (σ : Equiv.Perm (Fin c.instanceConfigs.length)) (hσ : σ ≠ 1)
    (hdistinct : ∀ i j : Fin c.instanceConfigs.length, i ≠ j →
      E.instanceEq (c.instanceConfigs.get i) (c.instanceConfigs.get j) = false) :
    PluginConfig.eq E (c.setInstanceConfigs (permutePositions c.instanceConfigs σ)) c = false ∧
    PluginConfig.eq E c (c.setInstanceConfigs (permutePositions c.instanceConfigs σ)) = false := by
  obtain ⟨i, hi⟩ := exists_moved_position σ hσ
  have hlen : i.1 < (permutePositions c.instanceConfigs σ).length := by
    rw [permutePositions_length]; exact i.2
  constructor
  · cases h : PluginConfig.eq E (c.setInstanceConfigs (permutePositions c.instanceConfigs σ)) c
    · rfl
    · have hget := ((eq_iff_fields E _ _).1 h).2.2.2.2.2 i.1 hlen i.2
      have hx : (c.setInstanceConfigs (permutePositions c.instanceConfigs σ)).instanceConfigs.get
          ⟨i.1, hlen⟩ = c.instanceConfigs.get (σ i) :=
        permutePositions_get c.instanceConfigs σ i.1 hlen i.2
      rw [hx, hdistinct (σ i) i hi] at hget
      exact absurd hget (by decide)
  · cases h : PluginConfig.eq E c (c.setInstanceConfigs (permutePositions c.instanceConfigs σ))
    · rfl
    · have hget := ((eq_iff_fields E _ _).1 h).2.2.2.2.2 i.1 i.2 hlen
      have hx : (c.setInstanceConfigs (permutePositions c.instanceConfigs σ)).instanceConfigs.get
          ⟨i.1, hlen⟩ = c.instanceConfigs.get (σ i) :=
        permutePositions_get c.instanceConfigs σ i.1 hlen i.2
      rw [hx, hdistinct i (σ i) (Ne.symm hi)] at hget
      exact absurd hget (by decide)

/-- Witness of C14 amended: exchanging the two instances of the spec's example scenario. -/
theorem reorder_distinct_unequal_witness :
    PluginConfig.eq specCollaborators
      ((PluginConfig.mkExact specCollaborators "/plugins/foo.so" (VersionInfo 1 0 0)
          [InstanceConfig "a", InstanceConfig "b"]).setInstanceConfigs
        (permutePositions [InstanceConfig "a", InstanceConfig "b"]
          (Equiv.swap ⟨0, by decide⟩ ⟨1, by decide⟩)))
      (PluginConfig.mkExact specCollaborators "/plugins/foo.so" (VersionInfo 1 0 0)
          [InstanceConfig "a", InstanceConfig "b"]) = false ∧
    PluginConfig.eq specCollaborators
      (PluginConfig.mkExact specCollaborators "/plugins/foo.so" (VersionInfo 1 0 0)
          [InstanceConfig "a", InstanceConfig "b"])
      ((PluginConfig.mkExact specCollaborators "/plugins/foo.so" (VersionInfo 1 0 0)
          [InstanceConfig "a", InstanceConfig "b"]).setInstanceConfigs
        (permutePositions [InstanceConfig "a", InstanceConfig "b"]
          (Equiv.swap ⟨0, by decide⟩ ⟨1, by decide⟩))) = false :=
  reorder_distinct_unequal specCollaborators
    (PluginConfig.mkExact specCollaborators "/plugins/foo.so" (VersionInfo 1 0 0)
      [InstanceConfig "a", InstanceConfig "b"])
    (Equiv.swap ⟨0, by decide⟩ ⟨1, by decide⟩) (by decide) (by decide)

/-- C15: each of the five setters stores its argument unchanged, so that the getter of the
same field returns it, and leaves what the other four getters return as it was; a setter
is total, whatever the argument does to `isValid()`. -/
theorem setters_frame (c : PluginConfig V I) (p : QString) (v : V) (L : List I) :
    ((c.setFilePath p).filePath = p ∧ (c.setFilePath p).version = c.version ∧
      (c.setFilePath p).minVersion = c.minVersion ∧
      (c.setFilePath p).maxVersion = c.maxVersion ∧
      (c.setFilePath p).instanceConfigs = c.instanceConfigs) ∧
    ((c.setVersion v).version = v ∧ (c.setVersion v).filePath = c.filePath ∧
      (c.setVersion v).minVersion = c.minVersion ∧
      (c.setVersion v).maxVersion = c.maxVersion ∧
      (c.setVersion v).instanceConfigs = c.instanceConfigs) ∧
    ((c.setMinVersion v).minVersion = v ∧ (c.setMinVersion v).filePath = c.filePath ∧
      (c.setMinVersion v).version = c.version ∧
      (c.setMinVersion v).maxVersion = c.maxVersion ∧
      (c.setMinVersion v).instanceConfigs = c.instanceConfigs) ∧
    ((c.setMaxVersion v).maxVersion = v ∧ (c.setMaxVersion v).filePath = c.filePath ∧
      (c.setMaxVersion v).version = c.version ∧
      (c.setMaxVersion v).minVersion = c.minVersion ∧
      (c.setMaxVersion v).instanceConfigs = c.instanceConfigs) ∧
    ((c.setInstanceConfigs L).instanceConfigs = L ∧
      (c.setInstanceConfigs L).filePath = c.filePath ∧
      (c.setInstanceConfigs L).version = c.version ∧
      (c.setInstanceConfigs L).minVersion = c.minVersion ∧
      (c.setInstanceConfigs L).maxVersion = c.maxVersion) :=
  ⟨⟨rfl, rfl, rfl, rfl, rfl⟩, ⟨rfl, rfl, rfl, rfl, rfl⟩, ⟨rfl, rfl, rfl, rfl, rfl⟩,
    ⟨rfl, rfl, rfl, rfl, rfl⟩, ⟨rfl, rfl, rfl, rfl, rfl⟩⟩

end Equality

/-! ### The duplicate-name step and the instance sequence -/

section Instances

variable {V I : Type}

theorem allPairsDistinct_iff_nodup (E : Collaborators V I) (L : List I) :
    allPairsDistinct E L = true ↔ (L.map E.instanceName).Nodup := by
  induction L with
  | nil => simp [allPairsDistinct]
  | cons a rest ih =>
    simp only [allPairsDistinct, ih, Bool.and_eq_true, List.all_eq_true, Bool.not_eq_true',
      beq_eq_false_iff_ne, ne_eq, List.map_cons, List.nodup_cons, List.mem_map, not_exists,
      not_and, and_congr_left_iff]
    intro _
    exact ⟨fun h x hx heq => h x hx heq.symm, fun h x hx heq => h x hx heq.symm⟩

theorem setBasedDistinct_iff (E : Collaborators V I) (seen : Finset QString) (L : List I) :
    setBasedDistinct E seen L = true ↔
      ((∀ x ∈ L, E.instanceName x ∉ seen) ∧ (L.map E.instanceName).Nodup) := by
  induction L generalizing seen with
  | nil => simp [setBasedDistinct]
  | cons a rest ih =>
    by_cases h : E.instanceName a ∈ seen
    · simp [setBasedDistinct, h]
    · simp only [setBasedDistinct, h, if_false, ih, Finset.mem_insert, not_or, List.mem_cons,
        forall_eq_or_imp, List.map_cons, List.nodup_cons, List.mem_map, not_exists, not_and,
        not_false_eq_true, true_and]
      constructor
      · rintro ⟨h₁, h₂⟩
        exact ⟨fun x hx => (h₁ x hx).2, fun x hx heq => (h₁ x hx).1 heq, h₂⟩
      · rintro ⟨h₁, h₂, h₃⟩
        exact ⟨fun x hx => ⟨fun heq => h₂ x hx heq, h₁ x hx⟩, h₃⟩

theorem isValid_setInstanceConfigs_iff (E : Collaborators V I) (c : PluginConfig V I)
    (L : List I) :
    (c.setInstanceConfigs L).isValid E = true ↔
      (E.validateFilePath c.m_filePath = true ∧
        (if c.isExactVersion E = true then E.versionIsValid c.m_version = true
          else E.isRangeValid c.m_minVersion c.m_maxVersion = true) ∧
        L ≠ [] ∧ (∀ x ∈ L, E.instanceIsValid x = true) ∧ (L.map E.instanceName).Nodup) := by
  rw [isValid_iff_steps, distinctNames_iff_nodup]
  rfl

/-- C16: the duplicate-name step of `isValid`, the nested counting loops, passes on a list
exactly when the list of its names has no duplicates, that is when no two distinct
positions hold equal names; it returns what the all-pairs check and the set-based check
return; in particular it passes on the empty list and on every one-element list. -/
theorem duplicate_loop_refines (E : Collaborators V I) (L : List I) (x : I) :
    (duplicateOuterLoop E L L = true ↔ (L.map E.instanceName).Nodup) ∧
    (duplicateOuterLoop E L L = true ↔
      ∀ i j : Fin L.length, i ≠ j → E.instanceName (L.get i) ≠ E.instanceName (L.get j)) ∧
    duplicateOuterLoop E L L = allPairsDistinct E L ∧
    duplicateOuterLoop E L L = setBasedDistinct E ∅ L ∧
    duplicateOuterLoop E [] [] = true ∧
    duplicateOuterLoop E [x] [x] = true := by
  refine ⟨duplicateOuterLoop_nodup E L, duplicateOuterLoop_distinct E L, ?_, ?_, rfl, ?_⟩
  · rw [Bool.eq_iff_iff, duplicateOuterLoop_nodup, allPairsDistinct_iff_nodup]
  · rw [Bool.eq_iff_iff, duplicateOuterLoop_nodup, setBasedDistinct_iff]
    simp
  · simp [duplicateOuterLoop, duplicateInnerLoop]

/-- C17: the order of the instance sequence does not matter to validation: for every
`PluginConfig` value and every permutation of its instance sequence, the value obtained by
`setInstanceConfigs` with the permuted sequence has the same `isValid()` result. -/
theorem isValid_perm_invariant (E : Collaborators V I) (c : PluginConfig V I) (L : List I)
    (hperm : L.Perm c.instanceConfigs) :
    (c.setInstanceConfigs L).isValid E = c.isValid E := by
  have hperm2 : L.Perm c.m_instanceConfigs := hperm
  rw [Bool.eq_iff_iff, isValid_setInstanceConfigs_iff, isValid_iff_steps,
    distinctNames_iff_nodup, (hperm2.map E.instanceName).nodup_iff]
  have hnil : L ≠ [] ↔ c.m_instanceConfigs ≠ [] := by
    constructor
    · intro h h2
      rw [h2] at hperm2
      exact h hperm2.eq_nil
    · intro h h2
      rw [h2] at hperm2
      exact h hperm2.nil_eq.symm
  have hall : (∀ x ∈ L, E.instanceIsValid x = true) ↔
      (∀ x ∈ c.m_instanceConfigs, E.instanceIsValid x = true) :=
    ⟨fun h x hx => h x (hperm2.mem_iff.2 hx), fun h x hx => h x (hperm2.mem_iff.1 hx)⟩
  rw [hnil, hall]

/-- Witness of C17: the spec's example scenario with its two instances exchanged. -/
theorem isValid_perm_invariant_witness :
    ((PluginConfig.mkExact specCollaborators "/plugins/foo.so" (VersionInfo 1 0 0)
        [InstanceConfig "a", InstanceConfig "b"]).setInstanceConfigs
        [InstanceConfig "b", InstanceConfig "a"]).isValid specCollaborators =
      (PluginConfig.mkExact specCollaborators "/plugins/foo.so" (VersionInfo 1 0 0)
        [InstanceConfig "a", InstanceConfig "b"]).isValid specCollaborators :=
  isValid_perm_invariant specCollaborators
    (PluginConfig.mkExact specCollaborators "/plugins/foo.so" (VersionInfo 1 0 0)
      [InstanceConfig "a", InstanceConfig "b"])
    [InstanceConfig "b", InstanceConfig "a"] (List.Perm.swap _ _ _)

/-- C18: outside exact mode validation never consults the version: for every `PluginConfig`
value in which minVersion or maxVersion is non-null, and every `VersionInfo` value, the value
obtained by `setVersion` has the same `isValid()` result. -/
theorem isValid_setVersion_outside_exact (E : Collaborators V I) (c : PluginConfig V I) (v : V)
    (hbound : E.versionIsNull c.minVersion = false ∨ E.versionIsNull c.maxVersion = false) :
    (c.setVersion v).isValid E = c.isValid E := by
  have h₁ : c.isExactVersion E = false := by
    rcases hbound with h | h <;>
      simp [PluginConfig.isExactVersion, PluginConfig.minVersion, PluginConfig.maxVersion] at h ⊢ <;>
      simp [h]
  have h₂ : (c.setVersion v).isExactVersion E = false := by
    rcases hbound with h | h <;>
      simp [PluginConfig.isExactVersion, PluginConfig.setVersion, PluginConfig.minVersion,
        PluginConfig.maxVersion] at h ⊢ <;>
      simp [h]
  unfold PluginConfig.isValid
  rw [h₁, h₂]
  rfl

/-- Witness of C18: a range configuration 1.0.0 to 2.0.0 given the version 9.9.9. -/
theorem isValid_setVersion_outside_exact_witness :
    ((PluginConfig.mkRange specCollaborators "/plugins/foo.so" (VersionInfo 1 0 0)
        (VersionInfo 2 0 0) [InstanceConfig "a"]).setVersion
        (VersionInfo 9 9 9)).isValid specCollaborators =
      (PluginConfig.mkRange specCollaborators "/plugins/foo.so" (VersionInfo 1 0 0)
        (VersionInfo 2 0 0) [InstanceConfig "a"]).isValid specCollaborators :=
  isValid_setVersion_outside_exact specCollaborators
    (PluginConfig.mkRange specCollaborators "/plugins/foo.so" (VersionInfo 1 0 0)
      (VersionInfo 2 0 0) [InstanceConfig "a"])
    (VersionInfo 9 9 9) (Or.inl (by decide))

/-- C19: validity is closed under removing instances as long as one remains: for every
`PluginConfig` value with `isValid()` true and every non-empty subsequence of its instance
sequence, the value obtained by `setInstanceConfigs` with the subsequence has `isValid()`
true. -/
theorem isValid_sublist (E : Collaborators V I) (c : PluginConfig V I)
    (hvalid : c.isValid E = true) (L : List I)
    (hsub : L.Sublist c.instanceConfigs) (hne : L ≠ []) :
    (c.setInstanceConfigs L).isValid E = true := by
  have hsub2 : L.Sublist c.m_instanceConfigs := hsub
  obtain ⟨hp, hv, -, hall, hdist⟩ := (isValid_iff_steps E c).1 hvalid
  rw [distinctNames_iff_nodup] at hdist
  exact (isValid_setInstanceConfigs_iff E c L).2
    ⟨hp, hv, hne, fun x hx => hall x (hsub2.subset hx),
      hdist.sublist (hsub2.map E.instanceName)⟩

/-- Witness of C19: the first and the last of three instances are kept. -/
theorem isValid_sublist_witness :
    ((PluginConfig.mkExact specCollaborators "/plugins/foo.so" (VersionInfo 1 0 0)
        [InstanceConfig "a", InstanceConfig "b", InstanceConfig "c"]).setInstanceConfigs
        [InstanceConfig "a", InstanceConfig "c"]).isValid specCollaborators = true :=
  isValid_sublist specCollaborators
    (PluginConfig.mkExact specCollaborators "/plugins/foo.so" (VersionInfo 1 0 0)
      [InstanceConfig "a", InstanceConfig "b", InstanceConfig "c"])
    (by decide) [InstanceConfig "a", InstanceConfig "c"]
    (((List.Sublist.refl [InstanceConfig "c"]).cons (InstanceConfig "b")).cons₂
      (InstanceConfig "a"))
    (by decide)

end Instances

end CppPluginFramework
